import Mathlib

/-!
# Verification of the harmonic-visualizer core (`src/lab_5/lab_5.py`)

This file is a shallow embedding of the `HarmonicVisualizer` class: its
parameter dictionary, the fixed time base, the derived arrays
(harmonic, noise, filtered) and the line objects that the class mutates,
together with the callbacks `_update`, `_update_filter`, `_reset` and
`_toggle_noise`.

Real-valued numerics (`np.sin`, `np.sqrt`, `np.pi`, the standard-normal
stream behind `np.random.normal`, and the Butterworth `filtfilt` core) are
kept abstract in an `Env` record: every theorem below is universally
quantified over that environment, so the results are about the control and
data-flow structure of the code, which is what the claims concern, and not
about transcendental arithmetic.  All scalar parameters are modelled as
rationals; machine floats only enter through the abstract `Env` functions.

Python exceptions raised inside a callback are modelled with
`Except VizState VizState`: `.ok s` is normal return with final object
state `s`, and `.error s` means an exception escaped the callback while
the object had already been mutated to state `s` (in-place mutation is not
rolled back by an exception, so the partial state is the payload).
-/

/-- Abstract numeric environment: `np.sin`, `np.sqrt`, `np.pi`,
the stream of standard-normal draws behind `np.random.normal`
(indexed by the call number and the sample index), and the core of
`scipy.signal.butter` + `filtfilt` for a valid design (normalized
cutoff → input signal → filtered signal). -/
structure Env where
  sin : ℚ → ℚ
  sqrt : ℚ → ℚ
  pi : ℚ
  draws : ℕ → ℕ → ℚ
  filt : ℚ → (ℕ → ℚ) → (ℕ → ℚ)

/-- The parameter dictionary `self.params` (keys of `initial_params`,
lines 8-16 of the source). -/
structure Params where
  amplitude : ℚ
  frequency : ℚ
  phase : ℚ
  noise_mean : ℚ
  noise_covariance : ℚ
  cutoff_frequency : ℚ
  show_noise : Bool
deriving DecidableEq

/-- The six slider values read at the top of `_update` (lines 80-87):
`new_params` without the `show_noise` key. -/
structure SliderVals where
  amplitude : ℚ
  frequency : ℚ
  phase : ℚ
  noise_mean : ℚ
  noise_covariance : ℚ
  cutoff_frequency : ℚ
deriving DecidableEq

/-- `self.params.update(new_params)`: overwrite the six slider-backed keys,
keep `show_noise`. -/
def mergeSliders (p : Params) (v : SliderVals) : Params :=
  { amplitude := v.amplitude
    frequency := v.frequency
    phase := v.phase
    noise_mean := v.noise_mean
    noise_covariance := v.noise_covariance
    cutoff_frequency := v.cutoff_frequency
    show_noise := p.show_noise }

/-- The fixed time base `self.t = np.linspace(0, 10, 1000)` (line 18):
sample `i` is `10 * i / 999`.  Arrays over the time base are modelled as
functions `ℕ → ℚ`; indices `0 ≤ i ≤ 999` are the live ones. -/
def t (i : ℕ) : ℚ := 10 * i / 999

/-- `_calculate_harmonic` (lines 25-28):
`amplitude * np.sin(2 * np.pi * frequency * self.t + phase)`. -/
def calculate_harmonic (env : Env) (p : Params) : ℕ → ℚ :=
  fun i => p.amplitude * env.sin (2 * env.pi * p.frequency * t i + p.phase)

/-- `_generate_noise` (lines 30-35):
`np.random.normal(noise_mean, np.sqrt(noise_covariance), len(t))`,
modelled as `mean + sqrt(cov) * z` over the abstract standard-normal
stream; `call` is the global count of `np.random.normal` calls so far,
so successive calls consume fresh draws. -/
def generate_noise (env : Env) (p : Params) (call : ℕ) : ℕ → ℚ :=
  fun i => p.noise_mean + env.sqrt p.noise_covariance * env.draws call i

/-- Modelled from the spec: `scipy.signal.butter` + `filtfilt` are library
code absent from `src/`.  Per §4.3 and the glossary, a digital Butterworth
design requires the normalized cutoff to lie in `(0, 1)` and the design
step fails (FilterDesignError) otherwise, never clamping; on a valid
design, `filtfilt` applies the abstract zero-phase filter `env.filt`. -/
def butter_filtfilt (env : Env) (normal_cutoff : ℚ) (signal : ℕ → ℚ) :
    Option (ℕ → ℚ) :=
  if 0 < normal_cutoff ∧ normal_cutoff < 1 then
    some (env.filt normal_cutoff signal)
  else
    none

/-- `fs = 1 / (self.t[1] - self.t[0])` (line 109). -/
def fs : ℚ := 1 / (t 1 - t 0)

/-- `nyq = 0.5 * fs` (line 111). -/
def nyq : ℚ := (1 / 2) * fs

/-- The object state: parameter dict, current slider values, the two
cached arrays `self.harmonic` and `self.noise`, the y-data and visibility
of the three plotted lines, and the number of `np.random.normal` calls
made so far (`rng_calls` indexes the abstract draw stream). -/
structure VizState where
  params : Params
  sliders : SliderVals
  harmonic : ℕ → ℚ
  noise : ℕ → ℚ
  line_noisy_y : ℕ → ℚ
  line_clean_y : ℕ → ℚ
  line_filtered_y : ℕ → ℚ
  line_noisy_visible : Bool
  line_clean_visible : Bool
  rng_calls : ℕ

/-- `_update_filter` (lines 108-115): compute the Nyquist-normalized
cutoff from the current `self.params['cutoff_frequency']`, design and
apply the filter, and set the filtered line's y-data; `none` models the
design step raising. -/
def update_filter (env : Env) (s : VizState) (noisy_signal : ℕ → ℚ) :
    Option VizState :=
  let cutoff := s.params.cutoff_frequency
  let normal_cutoff := cutoff / nyq
  match butter_filtfilt env normal_cutoff noisy_signal with
  | some filtered => some { s with line_filtered_y := filtered }
  | none => none

/-- `_update` (lines 79-106).  Reads the six slider values; if any of
amplitude/frequency/phase differs from `self.params`, overwrites the whole
dict with `new_params` and recomputes the harmonic; then, if either noise
key differs from the (possibly already overwritten) dict, overwrites again
and regenerates the noise; then overwrites unconditionally, rebuilds the
noisy signal, pushes y-data to the noisy and clean lines, and finally runs
`_update_filter`.  A filter-design failure escapes as `.error` carrying
the object state as mutated so far. -/
def update (env : Env) (s : VizState) : Except VizState VizState :=
  let new_params := s.sliders
  let s1 :=
    if new_params.amplitude ≠ s.params.amplitude ∨
       new_params.frequency ≠ s.params.frequency ∨
       new_params.phase ≠ s.params.phase then
      let p1 := mergeSliders s.params new_params
      { s with params := p1, harmonic := calculate_harmonic env p1 }
    else s
  let s2 :=
    if new_params.noise_mean ≠ s1.params.noise_mean ∨
       new_params.noise_covariance ≠ s1.params.noise_covariance then
      let p2 := mergeSliders s1.params new_params
      { s1 with params := p2
                noise := generate_noise env p2 s1.rng_calls
                rng_calls := s1.rng_calls + 1 }
    else s1
  let s3 := { s2 with params := mergeSliders s2.params new_params }
  let noisy_signal := fun i => s3.harmonic i + s3.noise i
  let s4 := { s3 with line_noisy_y := noisy_signal, line_clean_y := s3.harmonic }
  match update_filter env s4 noisy_signal with
  | some s5 => Except.ok s5
  | none => Except.error s4

/-- The object state after a callback, whether it returned normally or an
exception escaped (in-place mutation persists either way). -/
def stateOf : Except VizState VizState → VizState
  | Except.ok s => s
  | Except.error s => s

/-- The six slider-backed fields. -/
inductive SliderField
  | amplitude
  | frequency
  | phase
  | noise_mean
  | noise_covariance
  | cutoff_frequency
deriving DecidableEq

/-- Write one slider's value (the slider widget storing `set_val`). -/
def setSlider (f : SliderField) (v : ℚ) (sl : SliderVals) : SliderVals :=
  match f with
  | SliderField.amplitude => { sl with amplitude := v }
  | SliderField.frequency => { sl with frequency := v }
  | SliderField.phase => { sl with phase := v }
  | SliderField.noise_mean => { sl with noise_mean := v }
  | SliderField.noise_covariance => { sl with noise_covariance := v }
  | SliderField.cutoff_frequency => { sl with cutoff_frequency := v }

/-- Read one slider's value. -/
def getSlider (f : SliderField) (sl : SliderVals) : ℚ :=
  match f with
  | SliderField.amplitude => sl.amplitude
  | SliderField.frequency => sl.frequency
  | SliderField.phase => sl.phase
  | SliderField.noise_mean => sl.noise_mean
  | SliderField.noise_covariance => sl.noise_covariance
  | SliderField.cutoff_frequency => sl.cutoff_frequency

/-- A parameter-change event: the external slider stores the new value and
fires its `on_changed` callback, which is `_update` (lines 64-69). -/
def on_parameter_change (env : Env) (f : SliderField) (v : ℚ) (s : VizState) :
    Except VizState VizState :=
  update env { s with sliders := setSlider f v s.sliders }

/-- `self.initial_params` (lines 8-16): amplitude 1.0, frequency 0.3,
phase 0.0, noise_mean 0.0, noise_covariance 0.15, cutoff_frequency 2.0,
show_noise True. -/
def initial_params : Params :=
  { amplitude := 1
    frequency := 3 / 10
    phase := 0
    noise_mean := 0
    noise_covariance := 3 / 20
    cutoff_frequency := 2
    show_noise := true }

/-- The sliders' `valinit` values (lines 57-62): taken from
`initial_params`. -/
def initial_sliders : SliderVals :=
  { amplitude := 1
    frequency := 3 / 10
    phase := 0
    noise_mean := 0
    noise_covariance := 3 / 20
    cutoff_frequency := 2 }

/-- The slider's reset target `valinit` for each field. -/
def valinit (f : SliderField) : ℚ := getSlider f initial_sliders

/-- One `Slider.reset()` call inside `_reset` (lines 118-123): the
matplotlib slider sets its value back to `valinit` — firing `_update` —
only when the current value differs from `valinit`. -/
def slider_reset (env : Env) (f : SliderField) (s : VizState) :
    Except VizState VizState :=
  if getSlider f s.sliders ≠ valinit f then
    update env { s with sliders := setSlider f (valinit f) s.sliders }
  else
    Except.ok s

/-- `_reset` (lines 117-123): reset the six sliders in source order; each
reset that changes a value fires `_update`; an exception escaping one of
those updates aborts the rest. -/
def reset (env : Env) (s : VizState) : Except VizState VizState :=
  match slider_reset env SliderField.amplitude s with
  | Except.error e => Except.error e
  | Except.ok s =>
    match slider_reset env SliderField.frequency s with
    | Except.error e => Except.error e
    | Except.ok s =>
      match slider_reset env SliderField.phase s with
      | Except.error e => Except.error e
      | Except.ok s =>
        match slider_reset env SliderField.noise_mean s with
        | Except.error e => Except.error e
        | Except.ok s =>
          match slider_reset env SliderField.noise_covariance s with
          | Except.error e => Except.error e
          | Except.ok s => slider_reset env SliderField.cutoff_frequency s

/-- `_toggle_noise` (lines 125-129): flip `show_noise` and swap the
visibility of the noisy and clean lines; nothing numeric is touched. -/
def toggle_noise (s : VizState) : VizState :=
  let show_noise := ! s.params.show_noise
  { s with params := { s.params with show_noise := show_noise }
           line_noisy_visible := show_noise
           line_clean_visible := ! show_noise }

/-- The object state right after `_setup_plot` (lines 18-22, 37-47):
params and sliders at their initial values, harmonic and noise computed
once each (the noise call consumes draw index 0), the noisy line showing
harmonic + noise, the clean line showing the harmonic (invisible), the
filtered line seeded with the harmonic.  `__init__` then immediately runs
`_update(None)` once; `init_update` below is that full startup state. -/
def initState (env : Env) : VizState :=
  let h := calculate_harmonic env initial_params
  let n := generate_noise env initial_params 0
  { params := initial_params
    sliders := initial_sliders
    harmonic := h
    noise := n
    line_noisy_y := fun i => h i + n i
    line_clean_y := h
    line_filtered_y := h
    line_noisy_visible := true
    line_clean_visible := false
    rng_calls := 1 }

/-- The `_update(None)` call at the end of `__init__` (line 23). -/
def init_update (env : Env) : Except VizState VizState :=
  update env (initState env)

/-- The documented input domain of each slider-backed field
(slider ranges, lines 57-62; spec §6).  The phase bound `2π` uses the
environment's `pi`. -/
def in_domain (env : Env) (f : SliderField) (v : ℚ) : Prop :=
  match f with
  | SliderField.amplitude => 1 / 10 ≤ v ∧ v ≤ 2
  | SliderField.frequency => 1 / 10 ≤ v ∧ v ≤ 2
  | SliderField.phase => 0 ≤ v ∧ v ≤ 2 * env.pi
  | SliderField.noise_mean => -(1 / 2) ≤ v ∧ v ≤ 1 / 2
  | SliderField.noise_covariance => 0 ≤ v ∧ v ≤ 1 / 2
  | SliderField.cutoff_frequency => 1 / 10 ≤ v ∧ v ≤ 10

instance (env : Env) (f : SliderField) (v : ℚ) : Decidable (in_domain env f v) := by
  unfold in_domain
  cases f <;> infer_instance

/-- A concrete environment used to instantiate the universally quantified
theorems on explicit inputs. -/
def env0 : Env :=
  { sin := fun x => x
    sqrt := fun x => x
    pi := 3
    draws := fun _ _ => 0
    filt := fun _ signal => signal }

/-- The startup state after the amplitude slider was dragged to `1.5` and
the noise-mean slider to `0.3`, with `_update` not yet run on the
combination: the entry snapshot `self.params` still holds the defaults. -/
def combined_change_state (env : Env) : VizState :=
  { initState env with
    sliders := { initial_sliders with amplitude := 3 / 2, noise_mean := 3 / 10 } }

/-- The startup state after the amplitude slider was dragged to `2` and
the cutoff slider forced to `100` (above the Nyquist frequency `49.95`),
before `_update` runs. -/
def failing_event_state (env : Env) : VizState :=
  { initState env with
    sliders := { initial_sliders with amplitude := 2, cutoff_frequency := 100 } }

/-! ## Structural lemmas about `_update` -/

/-- The cached harmonic matches the current parameters. -/
def calcInv (env : Env) (s : VizState) : Prop :=
  s.harmonic = calculate_harmonic env s.params

/-- The parameter dict agrees with the sliders on the six slider-backed
fields (equivalently, merging the sliders into it changes nothing). -/
def syncInv (s : VizState) : Prop :=
  s.params = mergeSliders s.params s.sliders

/-- The harmonic depends only on amplitude, frequency and phase. -/
lemma calculate_harmonic_congr (env : Env) {p q : Params}
    (ha : p.amplitude = q.amplitude) (hf : p.frequency = q.frequency)
    (hp : p.phase = q.phase) :
    calculate_harmonic env p = calculate_harmonic env q := by
  unfold calculate_harmonic
  rw [ha, hf, hp]

lemma mergeSliders_merge (p : Params) (v : SliderVals) :
    mergeSliders (mergeSliders p v) v = mergeSliders p v := rfl

/-- After `_update`, the parameter dict is the full overwrite of the
previous dict with the slider values (line 100 runs in every branch, and
the earlier partial overwrites agree with it). -/
lemma update_params (env : Env) (s : VizState) :
    (stateOf (update env s)).params = mergeSliders s.params s.sliders := by
  unfold update update_filter butter_filtfilt
  dsimp only
  split_ifs <;> rfl

/-- `_update` never writes the sliders. -/
lemma update_sliders (env : Env) (s : VizState) :
    (stateOf (update env s)).sliders = s.sliders := by
  unfold update update_filter butter_filtfilt
  dsimp only
  split_ifs <;> rfl

/-- `_update` never touches `show_noise` or the line visibilities. -/
lemma update_visibility (env : Env) (s : VizState) :
    (stateOf (update env s)).params.show_noise = s.params.show_noise ∧
    (stateOf (update env s)).line_noisy_visible = s.line_noisy_visible ∧
    (stateOf (update env s)).line_clean_visible = s.line_clean_visible := by
  unfold update update_filter butter_filtfilt
  dsimp only
  split_ifs <;> exact ⟨rfl, rfl, rfl⟩

/-- After `_update`, the cached harmonic matches the merged parameters,
provided it matched the parameters on entry (in the branch that skips
recomputation, the three relevant fields did not change). -/
lemma update_harmonic (env : Env) (s : VizState) (h : calcInv env s) :
    (stateOf (update env s)).harmonic
      = calculate_harmonic env (mergeSliders s.params s.sliders) := by
  unfold update update_filter butter_filtfilt
  dsimp only
  by_cases h1 : s.sliders.amplitude ≠ s.params.amplitude ∨
      s.sliders.frequency ≠ s.params.frequency ∨
      s.sliders.phase ≠ s.params.phase
  · simp only [if_pos h1]
    split_ifs <;> rfl
  · simp only [if_neg h1]
    push_neg at h1
    have hcong := calculate_harmonic_congr env (p := s.params)
      (q := mergeSliders s.params s.sliders)
      h1.1.symm h1.2.1.symm h1.2.2.symm
    split_ifs <;> exact h.trans hcong

/-- `calcInv` is preserved by `_update`. -/
lemma update_calcInv (env : Env) (s : VizState) (h : calcInv env s) :
    calcInv env (stateOf (update env s)) := by
  unfold calcInv
  rw [update_harmonic env s h, update_params env s]

/-- `syncInv` holds of every post-`_update` state. -/
lemma update_syncInv (env : Env) (s : VizState) :
    syncInv (stateOf (update env s)) := by
  unfold syncInv
  rw [update_params env s, update_sliders env s, mergeSliders_merge]

/-- Frame: when neither noise slider moved, `_update` leaves the noise
array alone and consumes no random draw. -/
lemma update_noise_frame (env : Env) (s : VizState)
    (hm : s.sliders.noise_mean = s.params.noise_mean)
    (hc : s.sliders.noise_covariance = s.params.noise_covariance) :
    (stateOf (update env s)).noise = s.noise ∧
    (stateOf (update env s)).rng_calls = s.rng_calls := by
  unfold update update_filter butter_filtfilt
  dsimp only
  by_cases h1 : s.sliders.amplitude ≠ s.params.amplitude ∨
      s.sliders.frequency ≠ s.params.frequency ∨
      s.sliders.phase ≠ s.params.phase
  · simp only [if_pos h1]
    split_ifs with h2 h3 <;>
      first
        | exact ⟨rfl, rfl⟩
        | exact absurd h2 (by simp [mergeSliders])
  · simp only [if_neg h1]
    have h2 : ¬(s.sliders.noise_mean ≠ s.params.noise_mean ∨
        s.sliders.noise_covariance ≠ s.params.noise_covariance) := by
      push_neg
      exact ⟨hm, hc⟩
    simp only [if_neg h2]
    split_ifs <;> exact ⟨rfl, rfl⟩

/-- Frame: when none of the three harmonic sliders moved, `_update`
leaves the harmonic array alone. -/
lemma update_harmonic_frame (env : Env) (s : VizState)
    (ha : s.sliders.amplitude = s.params.amplitude)
    (hf : s.sliders.frequency = s.params.frequency)
    (hp : s.sliders.phase = s.params.phase) :
    (stateOf (update env s)).harmonic = s.harmonic := by
  have h1 : ¬(s.sliders.amplitude ≠ s.params.amplitude ∨
      s.sliders.frequency ≠ s.params.frequency ∨
      s.sliders.phase ≠ s.params.phase) := by
    push_neg
    exact ⟨ha, hf, hp⟩
  unfold update update_filter butter_filtfilt
  dsimp only
  simp only [if_neg h1]
  split_ifs <;> rfl

/-- The cutoff used by `_update_filter` during `_update` is the merged
(slider) cutoff; when its normalization lies in `(0, 1)` the design
succeeds and the call returns normally. -/
lemma update_ok (env : Env) (s : VizState)
    (h0 : 0 < s.sliders.cutoff_frequency / nyq)
    (h1 : s.sliders.cutoff_frequency / nyq < 1) :
    update env s = Except.ok (stateOf (update env s)) := by
  unfold update update_filter butter_filtfilt
  dsimp only
  have hcut : 0 < (mergeSliders s.params s.sliders).cutoff_frequency / nyq ∧
      (mergeSliders s.params s.sliders).cutoff_frequency / nyq < 1 := ⟨h0, h1⟩
  split_ifs <;>
    first
      | rfl
      | exact absurd hcut (by assumption)

/-- When the normalized slider cutoff falls outside `(0, 1)`, the design
step fails and the exception escapes `_update`. -/
lemma update_error (env : Env) (s : VizState)
    (h : ¬(0 < s.sliders.cutoff_frequency / nyq ∧
           s.sliders.cutoff_frequency / nyq < 1)) :
    update env s = Except.error (stateOf (update env s)) := by
  unfold update update_filter butter_filtfilt
  dsimp only
  split_ifs <;>
    first
      | rfl
      | exact absurd (by assumption) h

/-- On a normal return, the three lines show the freshly recomputed data:
the filtered line is the zero-phase filter of the current noisy signal at
the current (merged) cutoff, the noisy line is harmonic + noise, the
clean line is the harmonic. -/
lemma update_lines_ok (env : Env) (s s' : VizState)
    (h : update env s = Except.ok s') :
    s'.line_filtered_y
        = env.filt (s.sliders.cutoff_frequency / nyq)
            (fun i => s'.harmonic i + s'.noise i) ∧
    s'.line_noisy_y = (fun i => s'.harmonic i + s'.noise i) ∧
    s'.line_clean_y = s'.harmonic := by
  revert h
  unfold update update_filter butter_filtfilt
  dsimp only
  split_ifs <;> intro h <;> cases h <;> exact ⟨rfl, rfl, rfl⟩

/-- On a filter-design failure, the filtered line still shows its previous
data, while the parameter dict, the noisy line and the clean line have
already been overwritten with the new data. -/
lemma update_lines_error (env : Env) (s s' : VizState)
    (h : update env s = Except.error s') :
    s'.line_filtered_y = s.line_filtered_y ∧
    s'.line_noisy_y = (fun i => s'.harmonic i + s'.noise i) ∧
    s'.line_clean_y = s'.harmonic ∧
    s'.params = mergeSliders s.params s.sliders := by
  revert h
  unfold update update_filter butter_filtfilt
  dsimp only
  split_ifs <;> intro h <;> cases h <;> exact ⟨rfl, rfl, rfl, rfl⟩

/-! ## Slider and reset lemmas -/

lemma setSlider_self (f : SliderField) (sl : SliderVals)
    (h : getSlider f sl = v) : setSlider f v sl = sl := by
  subst h
  cases f <;> rfl

lemma cutoff_setSlider (f : SliderField) (v : ℚ) (sl : SliderVals)
    (hf : f ≠ SliderField.cutoff_frequency) :
    (setSlider f v sl).cutoff_frequency = sl.cutoff_frequency := by
  cases f <;> first | rfl | exact absurd rfl hf

/-- The Nyquist frequency of the fixed time base is `999/20` (sample rate
`999/10`, i.e. 99.9 samples per unit time). -/
lemma nyq_eq : nyq = 999 / 20 := by
  norm_num [nyq, fs, t]

lemma fs_eq : fs = 999 / 10 := by
  norm_num [fs, t]

/-- One slider reset: provided the state is consistent (`calcInv`,
`syncInv`) and the slider values after the reset carry a designable
cutoff, the reset returns normally, preserves consistency, writes the
slider back to its `valinit`, and leaves `show_noise` alone. -/
lemma slider_reset_ok (env : Env) (f : SliderField) (s : VizState)
    (hcalc : calcInv env s) (hsync : syncInv s)
    (h0 : 0 < (setSlider f (valinit f) s.sliders).cutoff_frequency / nyq)
    (h1 : (setSlider f (valinit f) s.sliders).cutoff_frequency / nyq < 1) :
    ∃ s', slider_reset env f s = Except.ok s' ∧ calcInv env s' ∧ syncInv s' ∧
      s'.sliders = setSlider f (valinit f) s.sliders ∧
      s'.params.show_noise = s.params.show_noise := by
  unfold slider_reset
  by_cases hg : getSlider f s.sliders ≠ valinit f
  · rw [if_pos hg]
    refine ⟨stateOf (update env { s with sliders := setSlider f (valinit f) s.sliders }),
      update_ok env _ h0 h1, ?_, update_syncInv env _, update_sliders env _, ?_⟩
    · exact update_calcInv env _ hcalc
    · exact (update_visibility env _).1
  · rw [if_neg hg]
    push_neg at hg
    exact ⟨s, rfl, hcalc, hsync, (setSlider_self f s.sliders hg).symm, rfl⟩

/-! ## Claim theorems -/

/-- C1: after any `_update` call on a state whose cached harmonic matches
its parameters, every sample of the harmonic array equals
`amplitude * sin(2π·frequency·t[i] + phase)` at the resulting parameter
set; moreover the harmonic computation is a pure function of
{amplitude, frequency, phase, TimeBase} (it ignores every other field). -/
theorem harmonic_formula_after_update (env : Env) (s : VizState)
    (h : calcInv env s) :
    (∀ i, (stateOf (update env s)).harmonic i
        = (stateOf (update env s)).params.amplitude *
            env.sin (2 * env.pi * (stateOf (update env s)).params.frequency * t i
              + (stateOf (update env s)).params.phase)) ∧
    (∀ p q : Params, p.amplitude = q.amplitude → p.frequency = q.frequency →
      p.phase = q.phase →
      calculate_harmonic env p = calculate_harmonic env q) := by
  constructor
  · intro i
    rw [update_harmonic env s h, update_params env s]
    rfl
  · intro p q ha hf hp
    exact calculate_harmonic_congr env ha hf hp

/-- C1 witness: the theorem instantiated at the concrete environment and
the startup state. -/
theorem harmonic_formula_after_update_witness :
    calcInv env0 (initState env0) ∧
    ((∀ i, (stateOf (update env0 (initState env0))).harmonic i
        = (stateOf (update env0 (initState env0))).params.amplitude *
            env0.sin (2 * env0.pi *
              (stateOf (update env0 (initState env0))).params.frequency * t i
              + (stateOf (update env0 (initState env0))).params.phase)) ∧
    (∀ p q : Params, p.amplitude = q.amplitude → p.frequency = q.frequency →
      p.phase = q.phase →
      calculate_harmonic env0 p = calculate_harmonic env0 q)) :=
  ⟨rfl, harmonic_formula_after_update env0 (initState env0) rfl⟩

/-- C3: `_update` recomputes the filtered line on every call, with no
staleness guard: whenever the (merged) cutoff admits a design, the call
returns normally and the filtered line is exactly the zero-phase filter of
the current noisy signal (harmonic + noise) at the current cutoff. -/
theorem filtered_recomputed_every_update (env : Env) (s : VizState)
    (h0 : 0 < s.sliders.cutoff_frequency / nyq)
    (h1 : s.sliders.cutoff_frequency / nyq < 1) :
    ∃ s', update env s = Except.ok s' ∧
      s'.line_filtered_y = env.filt (s.sliders.cutoff_frequency / nyq)
          (fun i => s'.harmonic i + s'.noise i) ∧
      s'.line_noisy_y = (fun i => s'.harmonic i + s'.noise i) ∧
      s'.params.cutoff_frequency = s.sliders.cutoff_frequency := by
  have hok := update_ok env s h0 h1
  obtain ⟨hf, hn, _⟩ := update_lines_ok env s _ hok
  refine ⟨_, hok, hf, hn, ?_⟩
  rw [update_params env s]
  rfl

/-- C3 witness: the theorem instantiated at the startup state, whose
cutoff `2.0` normalizes to `40/999 ∈ (0, 1)`. -/
theorem filtered_recomputed_every_update_witness :
    0 < (initState env0).sliders.cutoff_frequency / nyq ∧
    (initState env0).sliders.cutoff_frequency / nyq < 1 ∧
    ∃ s', update env0 (initState env0) = Except.ok s' ∧
      s'.line_filtered_y = env0.filt ((initState env0).sliders.cutoff_frequency / nyq)
          (fun i => s'.harmonic i + s'.noise i) ∧
      s'.line_noisy_y = (fun i => s'.harmonic i + s'.noise i) ∧
      s'.params.cutoff_frequency = (initState env0).sliders.cutoff_frequency :=
  ⟨by norm_num [initState, initial_sliders, nyq_eq],
   by norm_num [initState, initial_sliders, nyq_eq],
   filtered_recomputed_every_update env0 (initState env0)
     (by norm_num [initState, initial_sliders, nyq_eq])
     (by norm_num [initState, initial_sliders, nyq_eq])⟩

/-- C4: a parameter-change event that moves only the cutoff slider (the
five other sliders agree with the entry snapshot) leaves the harmonic and
noise arrays identical to their prior values and consumes no random draw,
while the filtered line is recomputed with the new cutoff from the
unchanged noisy signal. -/
theorem cutoff_only_change_frame (env : Env) (s : VizState) (c : ℚ)
    (ha : s.sliders.amplitude = s.params.amplitude)
    (hf : s.sliders.frequency = s.params.frequency)
    (hp : s.sliders.phase = s.params.phase)
    (hm : s.sliders.noise_mean = s.params.noise_mean)
    (hc : s.sliders.noise_covariance = s.params.noise_covariance)
    (h0 : 0 < c / nyq) (h1 : c / nyq < 1) :
    ∃ s', on_parameter_change env SliderField.cutoff_frequency c s = Except.ok s' ∧
      s'.harmonic = s.harmonic ∧
      s'.noise = s.noise ∧
      s'.rng_calls = s.rng_calls ∧
      s'.line_filtered_y = env.filt (c / nyq) (fun i => s.harmonic i + s.noise i) ∧
      s'.params.cutoff_frequency = c := by
  have hok := update_ok env
    { s with sliders := setSlider SliderField.cutoff_frequency c s.sliders } h0 h1
  have hH := update_harmonic_frame env
    { s with sliders := setSlider SliderField.cutoff_frequency c s.sliders } ha hf hp
  have hN := update_noise_frame env
    { s with sliders := setSlider SliderField.cutoff_frequency c s.sliders } hm hc
  obtain ⟨hfilt, _, _⟩ := update_lines_ok env _ _ hok
  refine ⟨_, hok, hH, hN.1, hN.2, ?_, ?_⟩
  · rw [hfilt, hH, hN.1]
    rfl
  · rw [update_params env _]
    rfl

/-- C4 witness: from the startup state, dragging only the cutoff slider
to `3.0`. -/
theorem cutoff_only_change_frame_witness :
    (initState env0).sliders.amplitude = (initState env0).params.amplitude ∧
    (initState env0).sliders.noise_mean = (initState env0).params.noise_mean ∧
    0 < (3 : ℚ) / nyq ∧ (3 : ℚ) / nyq < 1 ∧
    ∃ s', on_parameter_change env0 SliderField.cutoff_frequency 3 (initState env0)
        = Except.ok s' ∧
      s'.harmonic = (initState env0).harmonic ∧
      s'.noise = (initState env0).noise ∧
      s'.rng_calls = (initState env0).rng_calls ∧
      s'.line_filtered_y = env0.filt ((3 : ℚ) / nyq)
          (fun i => (initState env0).harmonic i + (initState env0).noise i) ∧
      s'.params.cutoff_frequency = 3 :=
  ⟨rfl, rfl, by norm_num [nyq_eq], by norm_num [nyq_eq],
   cutoff_only_change_frame env0 (initState env0) 3 rfl rfl rfl rfl rfl
     (by norm_num [nyq_eq]) (by norm_num [nyq_eq])⟩

/-- C5: whenever the normalized cutoff `cutoff_frequency / (0.5 * fs)` is
at least `1`, the design step inside `_update_filter` fails (no clamping,
no output): `_update` ends in the exceptional branch and the filtered
line still holds its previous data. -/
theorem filter_design_failure_at_high_cutoff (env : Env) (s : VizState)
    (h : 1 ≤ s.sliders.cutoff_frequency / nyq) :
    (∀ signal, butter_filtfilt env (s.sliders.cutoff_frequency / nyq) signal
        = none) ∧
    ∃ s', update env s = Except.error s' ∧
      s'.line_filtered_y = s.line_filtered_y := by
  have hne : ¬(0 < s.sliders.cutoff_frequency / nyq ∧
      s.sliders.cutoff_frequency / nyq < 1) := by
    rintro ⟨-, hlt⟩
    exact absurd h (not_le.mpr hlt)
  have herr := update_error env s hne
  obtain ⟨hfilt, -, -, -⟩ := update_lines_error env s _ herr
  refine ⟨?_, _, herr, hfilt⟩
  intro signal
  simp [butter_filtfilt, hne]

/-- C5 witness: the state whose cutoff slider holds `100`, far above the
Nyquist frequency `49.95`. -/
theorem filter_design_failure_at_high_cutoff_witness :
    1 ≤ (failing_event_state env0).sliders.cutoff_frequency / nyq ∧
    ((∀ signal, butter_filtfilt env0
        ((failing_event_state env0).sliders.cutoff_frequency / nyq) signal
        = none) ∧
    ∃ s', update env0 (failing_event_state env0) = Except.error s' ∧
      s'.line_filtered_y = (failing_event_state env0).line_filtered_y) :=
  ⟨by norm_num [failing_event_state, initState, initial_sliders, nyq_eq],
   filter_design_failure_at_high_cutoff env0 (failing_event_state env0)
     (by norm_num [failing_event_state, initState, initial_sliders, nyq_eq])⟩

/-- C8: `_toggle_noise` flips `show_noise` and swaps which of the noisy
and clean lines is visible; the harmonic, noise and filtered data (and
all three lines' y-data, and the random-draw count) are untouched. -/
theorem toggle_noise_frame (s : VizState) :
    (toggle_noise s).harmonic = s.harmonic ∧
    (toggle_noise s).noise = s.noise ∧
    (toggle_noise s).line_filtered_y = s.line_filtered_y ∧
    (toggle_noise s).line_noisy_y = s.line_noisy_y ∧
    (toggle_noise s).line_clean_y = s.line_clean_y ∧
    (toggle_noise s).rng_calls = s.rng_calls ∧
    (toggle_noise s).sliders = s.sliders ∧
    (toggle_noise s).params.show_noise = ! s.params.show_noise ∧
    (toggle_noise s).line_noisy_visible = ! s.params.show_noise ∧
    (toggle_noise s).line_clean_visible = ! ! s.params.show_noise :=
  ⟨rfl, rfl, rfl, rfl, rfl, rfl, rfl, rfl, rfl, rfl⟩

/-- C10: with the fixed time base (sample rate `999/10 = 99.9`, Nyquist
`999/20 = 49.95`), every in-domain cutoff (`0.1 ≤ cutoff ≤ 10`) gives a
normalized cutoff strictly inside `(0, 1)`, so the design-failure branch
of `_update_filter` is unreachable for in-domain inputs. -/
theorem filter_failure_unreachable_in_domain (env : Env) (s : VizState)
    (noisy : ℕ → ℚ)
    (hlo : 1 / 10 ≤ s.params.cutoff_frequency)
    (hhi : s.params.cutoff_frequency ≤ 10) :
    fs = 999 / 10 ∧
    0 < s.params.cutoff_frequency / nyq ∧
    s.params.cutoff_frequency / nyq < 1 ∧
    ∃ s', update_filter env s noisy = some s' := by
  have hn : (0 : ℚ) < nyq := by rw [nyq_eq]; norm_num
  have h0 : 0 < s.params.cutoff_frequency / nyq :=
    div_pos (lt_of_lt_of_le (by norm_num) hlo) hn
  have h1 : s.params.cutoff_frequency / nyq < 1 := by
    rw [div_lt_one hn, nyq_eq]
    linarith
  refine ⟨fs_eq, h0, h1, ?_⟩
  unfold update_filter butter_filtfilt
  dsimp only
  rw [if_pos ⟨h0, h1⟩]
  exact ⟨_, rfl⟩

/-- C10 witness: the startup state with its default cutoff `2.0`. -/
theorem filter_failure_unreachable_in_domain_witness :
    1 / 10 ≤ (initState env0).params.cutoff_frequency ∧
    (initState env0).params.cutoff_frequency ≤ 10 ∧
    (fs = 999 / 10 ∧
    0 < (initState env0).params.cutoff_frequency / nyq ∧
    (initState env0).params.cutoff_frequency / nyq < 1 ∧
    ∃ s', update_filter env0 (initState env0) (fun _ => 0) = some s') :=
  ⟨by norm_num [initState, initial_params],
   by norm_num [initState, initial_params],
   filter_failure_unreachable_in_domain env0 (initState env0) (fun _ => 0)
     (by norm_num [initState, initial_params])
     (by norm_num [initState, initial_params])⟩

/-- The key structural fact behind the staleness bug: whenever the
harmonic branch of `_update` fires, line 92 has already overwritten
`self.params` with `new_params` by the time the noise comparison on
line 95 runs, so that comparison sees no change and the noise is never
regenerated in the same call. -/
lemma update_noise_skipped_of_harm_change (env : Env) (s : VizState)
    (h1 : s.sliders.amplitude ≠ s.params.amplitude ∨
          s.sliders.frequency ≠ s.params.frequency ∨
          s.sliders.phase ≠ s.params.phase) :
    (stateOf (update env s)).noise = s.noise ∧
    (stateOf (update env s)).rng_calls = s.rng_calls := by
  unfold update update_filter butter_filtfilt
  dsimp only
  simp only [if_pos h1]
  split_ifs with h2 h3 <;>
    first
      | exact ⟨rfl, rfl⟩
      | exact absurd h2 (by simp [mergeSliders])

/-- C2: evaluation of `_update` at the failing input for the noise
staleness policy.  Starting from the startup snapshot (defaults) with the
amplitude slider at `1.5` and the noise-mean slider at `0.3` in the same
call: the incoming noise mean differs from the pre-call snapshot (`0.3` vs
`0.0`) and is committed to the dict, yet the noise array is not
regenerated and no random draw is consumed — line 92 of the source
already overwrote `self.params` (noise keys included) before the noise
staleness comparison on line 95 ran. -/
theorem noise_not_regenerated_on_combined_change :
    (combined_change_state env0).sliders.noise_mean
        ≠ (combined_change_state env0).params.noise_mean ∧
    (combined_change_state env0).sliders.amplitude
        ≠ (combined_change_state env0).params.amplitude ∧
    (stateOf (update env0 (combined_change_state env0))).params.noise_mean
        = 3 / 10 ∧
    (stateOf (update env0 (combined_change_state env0))).noise
        = (combined_change_state env0).noise ∧
    (stateOf (update env0 (combined_change_state env0))).rng_calls
        = (combined_change_state env0).rng_calls := by
  have hmean : (combined_change_state env0).sliders.noise_mean
      ≠ (combined_change_state env0).params.noise_mean := by
    norm_num [combined_change_state, initState, initial_sliders, initial_params]
  have hamp : (combined_change_state env0).sliders.amplitude
      ≠ (combined_change_state env0).params.amplitude := by
    norm_num [combined_change_state, initState, initial_sliders, initial_params]
  have hskip := update_noise_skipped_of_harm_change env0
    (combined_change_state env0) (Or.inl hamp)
  refine ⟨hmean, hamp, ?_, hskip.1, hskip.2⟩
  rw [show (stateOf (update env0 (combined_change_state env0))).params = _ from
    update_params env0 _]
  norm_num [mergeSliders, combined_change_state, initState, initial_sliders]

/-- C6 counterexample: an event that drags the amplitude slider to `2`
and the cutoff slider to `100` makes the filter design fail, yet the
exceptional `_update` has already overwritten the parameter dict and
pushed the new noisy data to the noisy line (sample 1 changes from
`18/999` to `36/999`): the observable state is not what it was before the
event, so the per-event recomputation is not atomic. -/
theorem update_not_atomic_on_filter_failure :
    ∃ s', update env0 (failing_event_state env0) = Except.error s' ∧
      s'.line_noisy_y 1 ≠ (failing_event_state env0).line_noisy_y 1 ∧
      s'.params ≠ (failing_event_state env0).params := by
  have hne : ¬(0 < (failing_event_state env0).sliders.cutoff_frequency / nyq ∧
      (failing_event_state env0).sliders.cutoff_frequency / nyq < 1) := by
    rintro ⟨-, hlt⟩
    rw [nyq_eq] at hlt
    norm_num [failing_event_state, initState, initial_sliders] at hlt
  have herr := update_error env0 _ hne
  obtain ⟨hfilt, hnoisy, hclean, hparams⟩ := update_lines_error env0 _ _ herr
  have hH := update_harmonic env0 (failing_event_state env0) rfl
  have hN := update_noise_frame env0 (failing_event_state env0) rfl rfl
  refine ⟨_, herr, ?_, ?_⟩
  · rw [hnoisy, hH, hN.1]
    norm_num [calculate_harmonic, generate_noise, mergeSliders,
      failing_event_state, initState, initial_params, initial_sliders, env0, t]
  · rw [hparams]
    intro hEq
    have := congrArg Params.amplitude hEq
    norm_num [mergeSliders, failing_event_state, initState,
      initial_params, initial_sliders] at this

/-- C6 amended: per-event recomputation is not all-or-nothing.  On a
filter-design failure the previous filtered signal is indeed retained,
but the parameter dict has already been fully overwritten and the noisy
and clean lines already show the new (possibly recomputed) harmonic and
noise — only the filtered view survives from before the event. -/
theorem filter_failure_partial_state (env : Env) (s s' : VizState)
    (h : update env s = Except.error s') :
    s'.line_filtered_y = s.line_filtered_y ∧
    s'.params = mergeSliders s.params s.sliders ∧
    s'.line_noisy_y = (fun i => s'.harmonic i + s'.noise i) ∧
    s'.line_clean_y = s'.harmonic := by
  obtain ⟨h1, h2, h3, h4⟩ := update_lines_error env s s' h
  exact ⟨h1, h4, h2, h3⟩

/-- C6 witness: the amended theorem instantiated at the concrete failing
event (amplitude slider `2`, cutoff slider `100`). -/
theorem filter_failure_partial_state_witness :
    update env0 (failing_event_state env0)
        = Except.error (stateOf (update env0 (failing_event_state env0))) ∧
    ((stateOf (update env0 (failing_event_state env0))).line_filtered_y
        = (failing_event_state env0).line_filtered_y ∧
     (stateOf (update env0 (failing_event_state env0))).params
        = mergeSliders (failing_event_state env0).params
            (failing_event_state env0).sliders ∧
     (stateOf (update env0 (failing_event_state env0))).line_noisy_y
        = (fun i => (stateOf (update env0 (failing_event_state env0))).harmonic i
            + (stateOf (update env0 (failing_event_state env0))).noise i) ∧
     (stateOf (update env0 (failing_event_state env0))).line_clean_y
        = (stateOf (update env0 (failing_event_state env0))).harmonic) := by
  have hne : ¬(0 < (failing_event_state env0).sliders.cutoff_frequency / nyq ∧
      (failing_event_state env0).sliders.cutoff_frequency / nyq < 1) := by
    rintro ⟨-, hlt⟩
    rw [nyq_eq] at hlt
    norm_num [failing_event_state, initState, initial_sliders] at hlt
  exact ⟨update_error env0 _ hne,
    filter_failure_partial_state env0 _ _ (update_error env0 _ hne)⟩

/-- C7 counterexample: the amplitude value `5` lies outside the documented
domain `[0.1, 2.0]`, yet the event is not rejected: `_update` runs to
completion, commits `amplitude = 5` to the parameter dict and recomputes
the harmonic with it (sample 1 changes), so the prior valid state is not
retained. -/
theorem out_of_domain_value_applied :
    ¬ in_domain env0 SliderField.amplitude 5 ∧
    ∃ s', on_parameter_change env0 SliderField.amplitude 5 (initState env0)
        = Except.ok s' ∧
      s'.params.amplitude = 5 ∧
      s'.harmonic 1 ≠ (initState env0).harmonic 1 := by
  have hdom : ¬ in_domain env0 SliderField.amplitude 5 := by
    rintro ⟨-, hle⟩
    norm_num at hle
  have hok := update_ok env0
    { initState env0 with sliders := setSlider SliderField.amplitude 5 (initState env0).sliders }
    (by norm_num [setSlider, initState, initial_sliders, nyq_eq])
    (by norm_num [setSlider, initState, initial_sliders, nyq_eq])
  have hH := update_harmonic env0
    { initState env0 with sliders := setSlider SliderField.amplitude 5 (initState env0).sliders }
    rfl
  refine ⟨hdom, _, hok, ?_, ?_⟩
  · rw [show (stateOf (update env0 _)).params = _ from update_params env0 _]
    rfl
  · rw [hH]
    norm_num [calculate_harmonic, mergeSliders, setSlider,
      initState, initial_params, initial_sliders, env0, t]

/-- C7 amended: `_update` performs no domain validation at all — an
out-of-domain value is merged into the parameter dict exactly like an
in-domain one (domain enforcement lives solely in the slider widgets'
ranges, outside this core). -/
theorem no_domain_validation_in_update (env : Env) (f : SliderField)
    (v : ℚ) (s : VizState) (hv : ¬ in_domain env f v) :
    (stateOf (on_parameter_change env f v s)).params
      = mergeSliders s.params (setSlider f v s.sliders) :=
  update_params env _

/-- C7 witness: the amended theorem at the out-of-domain amplitude `5`
from the startup state. -/
theorem no_domain_validation_in_update_witness :
    ¬ in_domain env0 SliderField.amplitude 5 ∧
    (stateOf (on_parameter_change env0 SliderField.amplitude 5 (initState env0))).params
      = mergeSliders (initState env0).params
          (setSlider SliderField.amplitude 5 (initState env0).sliders) := by
  have hdom : ¬ in_domain env0 SliderField.amplitude 5 := by
    rintro ⟨-, hle⟩
    norm_num at hle
  exact ⟨hdom, no_domain_validation_in_update env0 SliderField.amplitude 5
    (initState env0) hdom⟩

/-- A slider whose value already equals its `valinit` is not reset and
fires no callback. -/
lemma slider_reset_noop (env : Env) (f : SliderField) (s : VizState)
    (h : getSlider f s.sliders = valinit f) :
    slider_reset env f s = Except.ok s := by
  simp [slider_reset, h]

/-- C9 counterexample: `show_noise` defaults to `True`, but `_reset` only
resets the six sliders — the checkbox is untouched.  After toggling the
noise view off and pressing Reset (from the startup state, so every
slider is already at its default and no callback fires), `show_noise` is
still `False`, not its documented default. -/
theorem reset_keeps_show_noise :
    initial_params.show_noise = true ∧
    reset env0 (toggle_noise (initState env0))
        = Except.ok (toggle_noise (initState env0)) ∧
    (toggle_noise (initState env0)).params.show_noise = false := by
  refine ⟨rfl, ?_, rfl⟩
  have hnoop : ∀ f, slider_reset env0 f (toggle_noise (initState env0))
      = Except.ok (toggle_noise (initState env0)) :=
    fun f => slider_reset_noop env0 f _ rfl
  unfold reset
  simp only [hnoop]

/-- C9 amended: `_reset` restores the six slider-backed fields to their
documented defaults and re-runs the pipeline through the sliders'
callbacks (each firing only if its value differs), so the harmonic array
afterwards equals the startup harmonic; `show_noise` is not restored —
it keeps whatever value it had before the reset. -/
theorem reset_restores_slider_defaults (env : Env) (s : VizState)
    (hcalc : calcInv env s) (hsync : syncInv s)
    (h0 : 0 < s.sliders.cutoff_frequency / nyq)
    (h1 : s.sliders.cutoff_frequency / nyq < 1) :
    ∃ s', reset env s = Except.ok s' ∧
      s'.sliders = initial_sliders ∧
      s'.harmonic = (initState env).harmonic ∧
      s'.params.amplitude = 1 ∧
      s'.params.frequency = 3 / 10 ∧
      s'.params.phase = 0 ∧
      s'.params.noise_mean = 0 ∧
      s'.params.noise_covariance = 3 / 20 ∧
      s'.params.cutoff_frequency = 2 ∧
      s'.params.show_noise = s.params.show_noise := by
  obtain ⟨s1, hr1, hc1, hy1, hsl1, hn1⟩ :=
    slider_reset_ok env SliderField.amplitude s hcalc hsync
      (by rw [cutoff_setSlider _ _ _ (by decide)]; exact h0)
      (by rw [cutoff_setSlider _ _ _ (by decide)]; exact h1)
  have hcut1 : s1.sliders.cutoff_frequency = s.sliders.cutoff_frequency := by
    rw [hsl1, cutoff_setSlider _ _ _ (by decide)]
  obtain ⟨s2, hr2, hc2, hy2, hsl2, hn2⟩ :=
    slider_reset_ok env SliderField.frequency s1 hc1 hy1
      (by rw [cutoff_setSlider _ _ _ (by decide), hcut1]; exact h0)
      (by rw [cutoff_setSlider _ _ _ (by decide), hcut1]; exact h1)
  have hcut2 : s2.sliders.cutoff_frequency = s.sliders.cutoff_frequency := by
    rw [hsl2, cutoff_setSlider _ _ _ (by decide), hcut1]
  obtain ⟨s3, hr3, hc3, hy3, hsl3, hn3⟩ :=
    slider_reset_ok env SliderField.phase s2 hc2 hy2
      (by rw [cutoff_setSlider _ _ _ (by decide), hcut2]; exact h0)
      (by rw [cutoff_setSlider _ _ _ (by decide), hcut2]; exact h1)
  have hcut3 : s3.sliders.cutoff_frequency = s.sliders.cutoff_frequency := by
    rw [hsl3, cutoff_setSlider _ _ _ (by decide), hcut2]
  obtain ⟨s4, hr4, hc4, hy4, hsl4, hn4⟩ :=
    slider_reset_ok env SliderField.noise_mean s3 hc3 hy3
      (by rw [cutoff_setSlider _ _ _ (by decide), hcut3]; exact h0)
      (by rw [cutoff_setSlider _ _ _ (by decide), hcut3]; exact h1)
  have hcut4 : s4.sliders.cutoff_frequency = s.sliders.cutoff_frequency := by
    rw [hsl4, cutoff_setSlider _ _ _ (by decide), hcut3]
  obtain ⟨s5, hr5, hc5, hy5, hsl5, hn5⟩ :=
    slider_reset_ok env SliderField.noise_covariance s4 hc4 hy4
      (by rw [cutoff_setSlider _ _ _ (by decide), hcut4]; exact h0)
      (by rw [cutoff_setSlider _ _ _ (by decide), hcut4]; exact h1)
  obtain ⟨s6, hr6, hc6, hy6, hsl6, hn6⟩ :=
    slider_reset_ok env SliderField.cutoff_frequency s5 hc5 hy5
      (by rw [nyq_eq]; norm_num [setSlider, valinit, getSlider, initial_sliders])
      (by rw [nyq_eq]; norm_num [setSlider, valinit, getSlider, initial_sliders])
  have hsliders : s6.sliders = initial_sliders := by
    rw [hsl6, hsl5, hsl4, hsl3, hsl2, hsl1]
    rfl
  have hA : s6.params.amplitude = 1 := by
    rw [hy6, hsliders]
    rfl
  have hF : s6.params.frequency = 3 / 10 := by
    rw [hy6, hsliders]
    rfl
  have hP : s6.params.phase = 0 := by
    rw [hy6, hsliders]
    rfl
  have hM : s6.params.noise_mean = 0 := by
    rw [hy6, hsliders]
    rfl
  have hC : s6.params.noise_covariance = 3 / 20 := by
    rw [hy6, hsliders]
    rfl
  have hCut : s6.params.cutoff_frequency = 2 := by
    rw [hy6, hsliders]
    rfl
  refine ⟨s6, ?_, hsliders, ?_, hA, hF, hP, hM, hC, hCut, ?_⟩
  · unfold reset
    simp only [hr1, hr2, hr3, hr4, hr5, hr6]
  · exact hc6.trans (calculate_harmonic_congr env hA hF hP)
  · rw [hn6, hn5, hn4, hn3, hn2, hn1]

/-- C9 witness: the amended theorem at the startup state itself. -/
theorem reset_restores_slider_defaults_witness :
    calcInv env0 (initState env0) ∧ syncInv (initState env0) ∧
    0 < (initState env0).sliders.cutoff_frequency / nyq ∧
    (initState env0).sliders.cutoff_frequency / nyq < 1 ∧
    ∃ s', reset env0 (initState env0) = Except.ok s' ∧
      s'.sliders = initial_sliders ∧
      s'.harmonic = (initState env0).harmonic ∧
      s'.params.amplitude = 1 ∧
      s'.params.frequency = 3 / 10 ∧
      s'.params.phase = 0 ∧
      s'.params.noise_mean = 0 ∧
      s'.params.noise_covariance = 3 / 20 ∧
      s'.params.cutoff_frequency = 2 ∧
      s'.params.show_noise = (initState env0).params.show_noise :=
  ⟨rfl, rfl,
   by norm_num [initState, initial_sliders, nyq_eq],
   by norm_num [initState, initial_sliders, nyq_eq],
   reset_restores_slider_defaults env0 (initState env0) rfl rfl
     (by norm_num [initState, initial_sliders, nyq_eq])
     (by norm_num [initState, initial_sliders, nyq_eq])⟩
